import Mathlib

/-!
Shallow embedding of the SpaceCar repository (src/main.py,
src/space_car/api_engine.py, src/space_car/space_car.py) and proofs of the
specification's claims about it.

The embedding keeps the source's structure: JSON field lookups with
`dict.get(key)` become `Option` fields, `dict.get(key, default)` becomes
`Option.getD`, Python runtime faults (TypeError on `asyncio.sleep(None)`,
TypeError/IndexError on `scenes['results'][0]`) become explicit error
constructors, and `float` values become `ℚ`.  Network and image-codec
collaborators (HTTP fetch, PIL merge, `json.loads`) are parameters, mirroring
the spec's scoping of them as external interfaces.
-/

namespace ApiEngine

/-- A parsed HTTP response as seen by `ApiEngine._make_request`
(src/space_car/api_engine.py lines 26-41): the integer status plus the error
fields read with `response.get('error', None)` / `response.get('errorMessage',
None)`. -/
structure HttpResponse where
  status : Nat
  error : Option String
  errorMessage : Option String
deriving Repr, DecidableEq

/-- Outcome of `_make_request`'s classification of a response: success,
`AuthenticationError('Invalid token used')`, or the generic
`Exception(error, errorMessage)` the spec names `PipelineError`. -/
inductive RequestOutcome where
  | ok
  | authenticationError (msg : String)
  | pipelineError (code : Option String) (msg : Option String)
deriving Repr, DecidableEq

/-- `ApiEngine._make_request` error classification (api_engine.py lines
33-41), shared by `_initiate`, `_retrieve` and `_get_status`: a non-200
response raises `AuthenticationError` when its `error` field equals
`INVALID-AUTHORIZATION-HEADER`, otherwise `Exception(error, errorMessage)`;
a 200 response is returned. -/
def make_request (resp : HttpResponse) : RequestOutcome :=
  if resp.status ≠ 200 then
    let error := resp.error
    if error = some "INVALID-AUTHORIZATION-HEADER" then
      .authenticationError "Invalid token used"
    else
      .pipelineError error resp.errorMessage
  else
    .ok

/-- The initiate endpoint's parsed body as read by `get_data` (api_engine.py
line 59): `initiate_response.get('nextTry')` and
`initiate_response.get('pipelineId')`, both absent-able. -/
structure InitiateResponse where
  nextTry : Option Nat
  pipelineId : Option String
deriving Repr, DecidableEq

/-- A status endpoint's parsed body as read by the polling loop (api_engine.py
lines 65, 70): `status_response.get('status', '')` and
`status_response.get('nextTry', 100)`. -/
structure StatusResponse where
  status : Option String
  nextTry : Option Nat
deriving Repr, DecidableEq

/-- Observable actions of one `get_data` call: the `asyncio.sleep` waits, the
status polls and the final retrieve request (each poll/retrieve carries the
`pipelineId` used in its payload). -/
inductive Event where
  | sleep (seconds : Nat)
  | poll (pipelineId : Option String)
  | retrieve (pipelineId : Option String)
deriving Repr, DecidableEq

/-- How a `get_data` call ends: retrieve response returned; the
`Exception(f"An error occurred during processing pipeline {pipeline_id}")`
raised on a FAILED status (the spec's `PipelineError`); the TypeError Python
raises when `asyncio.sleep` receives `None`; or the scripted environment ran
out of status responses. -/
inductive GetDataResult where
  | success
  | pipelineError (pipelineId : Option String)
  | typeError
  | noResponse
deriving Repr, DecidableEq

/-- Whether an event is a status poll. -/
def Event.isPoll : Event → Bool
  | .poll _ => true
  | _ => false

/-- Whether an event is a retrieve request. -/
def Event.isRetrieve : Event → Bool
  | .retrieve _ => true
  | _ => false

/-- Result of the `while True` polling loop of `get_data` (api_engine.py lines
61-70) before the retrieve step. -/
inductive LoopResult where
  | resolved
  | failed
  | typeError
  | noResponse
deriving Repr, DecidableEq

/-- The `while True` loop of `get_data` (api_engine.py lines 61-70), run
against a script of status responses (one per poll).  Each iteration sleeps
`next_try` seconds (faulting like `asyncio.sleep(None)` when the value is
absent), polls the status endpoint, breaks on `RESOLVED`, raises on `FAILED`,
and otherwise continues with `status_response.get('nextTry', 100)` as the next
wait.  Returns the event trace and how the loop ended. -/
def pollLoop (pipelineId : Option String) :
    Option Nat → List StatusResponse → List Event × LoopResult
  | none, _ => ([], .typeError)
  | some n, [] => ([.sleep n], .noResponse)
  | some n, resp :: rest =>
    let status := resp.status.getD ""
    if status = "RESOLVED" then ([.sleep n, .poll pipelineId], .resolved)
    else if status = "FAILED" then ([.sleep n, .poll pipelineId], .failed)
    else
      let t := pollLoop pipelineId (some (resp.nextTry.getD 100)) rest
      (.sleep n :: .poll pipelineId :: t.1, t.2)

/-- `ApiEngine.get_data` (api_engine.py lines 52-74) after a successful
initiate request: reads `nextTry` and `pipelineId` from the initiate response,
runs the polling loop against the scripted status responses, and on
`RESOLVED` performs the retrieve request.  Returns the event trace and the
call's result. -/
def get_data (init : InitiateResponse) (script : List StatusResponse) :
    List Event × GetDataResult :=
  let pipeline_id := init.pipelineId
  let t := pollLoop pipeline_id init.nextTry script
  match t.2 with
  | .resolved => (t.1 ++ [.retrieve pipeline_id], .success)
  | .failed => (t.1, .pipelineError pipeline_id)
  | .typeError => (t.1, .typeError)
  | .noResponse => (t.1, .noResponse)

/-- A `PENDING` status response carrying a `nextTry` hint. -/
def pending (nextTry : Nat) : StatusResponse :=
  { status := some "PENDING", nextTry := some nextTry }

end ApiEngine

/-- One entry of a scene's `bands` list; only its `gsd` field is read
(src/space_car/space_car.py line 105). -/
structure Band where
  gsd : ℚ
deriving Repr, DecidableEq

/-- A scene as read by the selection and saving code: `sceneId` (line 109),
`cloudCover` read with `scene.get('cloudCover', 1)` so it may be absent
(line 102), the `bands` list (line 105), and `datetime` (line 159).
Floats are modelled as ℚ. -/
structure Scene where
  sceneId : String
  cloudCover : Option ℚ
  bands : List Band
  datetime : String
deriving Repr, DecidableEq

/-- Runtime faults of `choose_best_scene`: `typeFault` models the TypeError
Python raises for `scenes['results']` when `scenes` is a plain list
(space_car.py line 108), `indexFault` models IndexError/KeyError from
indexing an empty list or missing key (`scenes['results'][0]` on an empty
result list, `scene['bands'][0]` on a scene without bands). -/
inductive SelError where
  | typeFault
  | indexFault
deriving Repr, DecidableEq

/-- The qualification test of the selection loop (space_car.py line 102):
`scene.get('cloudCover', 1) <= 0.30`. -/
def qualifies (s : Scene) : Bool :=
  s.cloudCover.getD 1 ≤ (30 : ℚ) / 100

/-- `scene['bands'][0]['gsd']` (space_car.py line 105): faults when the
scene's `bands` list is empty. -/
def gsd0 (s : Scene) : Except SelError ℚ :=
  match s.bands with
  | [] => .error .indexFault
  | b :: _ => .ok b.gsd

/-- `scene['bands'][0]['gsd']` as a total function, for stating theorems about
scenes whose `bands` list is known nonempty. -/
def gsdD (s : Scene) : ℚ :=
  match s.bands with
  | [] => 0
  | b :: _ => b.gsd

/-- One replacement step of the selection loop, on scenes whose `bands` are
nonempty: keep the current best unless the new scene's `bands[0].gsd` is
strictly smaller (space_car.py line 105). -/
def selStep (b s : Scene) : Scene :=
  if gsdD s < gsdD b then s else b

/-- The `for scene in scenes` accumulation loop shared by both versions of
`choose_best_scene` (space_car.py lines 100-106, main.py lines 192-198):
skip scenes with `cloudCover` above 0.30 (absent counts as 1), adopt the
first qualifying scene, and afterwards replace the best only on strictly
smaller `bands[0].gsd`. -/
def bestLoop (best : Option Scene) : List Scene → Except SelError (Option Scene)
  | [] => .ok best
  | s :: rest =>
    if qualifies s then
      match best with
      | none => bestLoop (some s) rest
      | some b =>
        match gsd0 s with
        | .error e => .error e
        | .ok gs =>
          match gsd0 b with
          | .error e => .error e
          | .ok gb =>
            if gs < gb then bestLoop (some s) rest else bestLoop (some b) rest
    else bestLoop best rest

namespace SpaceCar

/-- `SpaceCar.choose_best_scene` (src/space_car/space_car.py lines 92-110):
its parameter is a plain list of scenes (it is called with
`get_all_scenes`'s `scenes['results']`), so the fallback expression
`scenes['results'][0]` on line 108 is a TypeError whenever it is reached. -/
def choose_best_scene (scenes : List Scene) : Except SelError Scene := do
  let best ← bestLoop none scenes
  match best with
  | some b => .ok b
  | none => .error .typeFault

end SpaceCar

/-- The search response as used by `CarVisualizer.choose_best_scene`
(src/main.py lines 193, 200): a body whose `results` key holds the scene
list. -/
structure SearchResult where
  results : List Scene
deriving Repr, DecidableEq

namespace CarVisualizer

/-- `CarVisualizer.choose_best_scene` (src/main.py lines 184-202): iterates
over `scenes['results']` and falls back to `scenes['results'][0]`, which
faults when the result list is empty. -/
def choose_best_scene (scenes : SearchResult) : Except SelError Scene := do
  let best ← bestLoop none scenes.results
  match best with
  | some b => .ok b
  | none =>
    match scenes.results with
    | [] => .error .indexFault
    | s :: _ => .ok s

end CarVisualizer

/-- One tile coordinate of a map grid, in the order it is spliced into the
grid URL `{zoom}/{x}/{y}` (space_car.py lines 72-73): `tile[0]` is the zoom,
`tile[1]` is x, `tile[2]` is y. -/
structure Tile where
  zoom : Nat
  x : Nat
  y : Nat
deriving Repr, DecidableEq

/-- A map descriptor returned by a release call, as read by
`get_scene_images` (space_car.py lines 140-143): `mapId` and the `tiles`
list. -/
structure MapDescriptor where
  mapId : String
  tiles : List Tile
deriving Repr, DecidableEq

/-- One element of the `image_components` list built by `get_scene_images`
(space_car.py line 145): background bytes, foreground bytes, detections
bytes and the image name `f'{tile[1]}-{tile[2]}'`.  The byte type is a
parameter since fetching is an external collaborator. -/
structure ImageComponent (β : Type) where
  background : β
  foreground : β
  detections : β
  name : String
deriving Repr, DecidableEq

namespace SpaceCar

/-- `SpaceCar.get_scene_images` (space_car.py lines 130-148): for every tile
of `imagery_map['tiles']`, in order, fetch the truecolor tile from the
imagery map id and the cars tile and detections document from the cars map
id, and record the image name `f'{tile[1]}-{tile[2]}'`.  `fetch` abstracts
`_get_file session map_id tile file_type`.  The cars map's own tile list is
never read. -/
def get_scene_images {β : Type} (fetch : String → Tile → String → β)
    (imagery_map cars_map : MapDescriptor) : List (ImageComponent β) :=
  imagery_map.tiles.map fun tile =>
    { background := fetch imagery_map.mapId tile "truecolor.png"
      foreground := fetch cars_map.mapId tile "cars.png"
      detections := fetch cars_map.mapId tile "detections.geojson"
      name := toString tile.x ++ "-" ++ toString tile.y }

/-- `scene['datetime'].replace(' ', '_')` (space_car.py line 159),
as the character-wise replacement over the string's characters. -/
def sanitizeName (s : String) : String :=
  ⟨s.data.map fun c => if c = ' ' then '_' else c⟩

/-- What `save_scene_images` persists for one image component: the merged
PNG's path and content, and the sidecar JSON's path and its `cars_count`
value. -/
structure SavedTile (β : Type) where
  pngPath : String
  pngContent : β
  jsonPath : String
  carsCount : Nat
deriving Repr, DecidableEq

/-- `SpaceCar.save_scene_images` (space_car.py lines 150-174) as the list of
files it writes under the scene's sanitized-datetime directory: for each
image component, the merged image at `{scene_name}/{image_name}.png` and the
sidecar `{scene_name}/{image_name}.json` holding
`{"cars_count": len(json.loads(detections_info)['features'])}`.
`merge` abstracts the PIL open/paste/save pipeline and `parseFeatures`
abstracts `json.loads(detections_info)['features']`. -/
def save_scene_images {β γ : Type} (merge : β → β → β)
    (parseFeatures : β → List γ)
    (image_components : List (ImageComponent β)) (scene : Scene) :
    List (SavedTile β) :=
  let scene_name := sanitizeName scene.datetime
  image_components.map fun c =>
    { pngPath := scene_name ++ "/" ++ c.name ++ ".png"
      pngContent := merge c.background c.foreground
      jsonPath := scene_name ++ "/" ++ c.name ++ ".json"
      carsCount := (parseFeatures c.detections).length }

end SpaceCar

/-! ## Theorems -/

/-- `scene['bands'][0]['gsd']` succeeds and returns the head band's gsd
whenever the `bands` list is nonempty. -/
theorem gsd0_ok (s : Scene) (h : s.bands ≠ []) : gsd0 s = .ok (gsdD s) := by
  cases hb : s.bands with
  | nil => exact absurd hb h
  | cons b rest => simp [gsd0, gsdD, hb]

/-- C2: for every non-200 response to a pipeline request (initiate, status or
retrieve all classify errors through the shared `_make_request`), the
operation fails with AuthenticationError exactly when the body's error code
equals INVALID-AUTHORIZATION-HEADER, and with a PipelineError carrying the
response's error code and error message for every other error code. -/
theorem make_request_classification (resp : ApiEngine.HttpResponse)
    (h : resp.status ≠ 200) :
    (ApiEngine.make_request resp =
        .authenticationError "Invalid token used" ↔
      resp.error = some "INVALID-AUTHORIZATION-HEADER")
    ∧ (∀ code : String, resp.error = some code →
        code ≠ "INVALID-AUTHORIZATION-HEADER" →
        ApiEngine.make_request resp =
          .pipelineError (some code) resp.errorMessage) := by
  by_cases hc : resp.error = some "INVALID-AUTHORIZATION-HEADER"
  · refine ⟨by simp [ApiEngine.make_request, h, hc], ?_⟩
    intro code hcode hne
    rw [hc] at hcode
    exact absurd (Option.some.inj hcode).symm hne
  · refine ⟨by simp [ApiEngine.make_request, h, hc], ?_⟩
    intro code hcode hne
    simp [ApiEngine.make_request, h, hc, hcode]
    exact hne

/-- C2 witness: the classification theorem applied to a concrete 403 response
carrying a non-authentication error code. -/
theorem make_request_classification_witness :
    (ApiEngine.make_request ⟨403, some "NON-EXISTENT-MAP-ID", some "boom"⟩ =
        .authenticationError "Invalid token used" ↔
      (⟨403, some "NON-EXISTENT-MAP-ID", some "boom"⟩ :
        ApiEngine.HttpResponse).error =
          some "INVALID-AUTHORIZATION-HEADER")
    ∧ (∀ code : String,
        (⟨403, some "NON-EXISTENT-MAP-ID", some "boom"⟩ :
          ApiEngine.HttpResponse).error = some code →
        code ≠ "INVALID-AUTHORIZATION-HEADER" →
        ApiEngine.make_request ⟨403, some "NON-EXISTENT-MAP-ID", some "boom"⟩ =
          .pipelineError (some code)
            (⟨403, some "NON-EXISTENT-MAP-ID", some "boom"⟩ :
              ApiEngine.HttpResponse).errorMessage) :=
  make_request_classification ⟨403, some "NON-EXISTENT-MAP-ID", some "boom"⟩
    (by decide)

/-- C1: against the scripted status sequence PENDING(2), PENDING(5), RESOLVED
after a successful initiate, `get_data` produces exactly the trace sleep w,
poll, sleep 2, poll, sleep 5, poll, retrieve (w being the initiate response's
nextTry), so it performs exactly 3 status polls and 1 retrieve call and waits
before each poll exactly the next_try delivered by the previous response. -/
theorem get_data_scripted_pending_pending_resolved
    (w : Nat) (pid : String) (r : ApiEngine.StatusResponse)
    (hr : r.status = some "RESOLVED") :
    ApiEngine.get_data ⟨some w, some pid⟩
        [ApiEngine.pending 2, ApiEngine.pending 5, r] =
      ([.sleep w, .poll (some pid), .sleep 2, .poll (some pid),
        .sleep 5, .poll (some pid), .retrieve (some pid)], .success)
    ∧ ([ApiEngine.Event.sleep w, .poll (some pid), .sleep 2, .poll (some pid),
        .sleep 5, .poll (some pid),
        .retrieve (some pid)].countP ApiEngine.Event.isPoll = 3
    ∧ [ApiEngine.Event.sleep w, .poll (some pid), .sleep 2, .poll (some pid),
        .sleep 5, .poll (some pid),
        .retrieve (some pid)].countP ApiEngine.Event.isRetrieve = 1) := by
  refine ⟨?_, by simp [List.countP, List.countP.go, ApiEngine.Event.isPoll,
    ApiEngine.Event.isRetrieve]⟩
  simp [ApiEngine.get_data, ApiEngine.pollLoop, ApiEngine.pending, hr]

/-- C1 witness: the scripted-sequence theorem applied at initiate nextTry 7,
pipeline id pl-1 and a concrete RESOLVED final response. -/
theorem get_data_scripted_witness :
    ApiEngine.get_data ⟨some 7, some "pl-1"⟩
        [ApiEngine.pending 2, ApiEngine.pending 5, ⟨some "RESOLVED", none⟩] =
      ([.sleep 7, .poll (some "pl-1"), .sleep 2, .poll (some "pl-1"),
        .sleep 5, .poll (some "pl-1"), .retrieve (some "pl-1")], .success)
    ∧ ([ApiEngine.Event.sleep 7, .poll (some "pl-1"), .sleep 2,
        .poll (some "pl-1"), .sleep 5, .poll (some "pl-1"),
        .retrieve (some "pl-1")].countP ApiEngine.Event.isPoll = 3
    ∧ [ApiEngine.Event.sleep 7, .poll (some "pl-1"), .sleep 2,
        .poll (some "pl-1"), .sleep 5, .poll (some "pl-1"),
        .retrieve (some "pl-1")].countP ApiEngine.Event.isRetrieve = 1) :=
  get_data_scripted_pending_pending_resolved 7 "pl-1" ⟨some "RESOLVED", none⟩
    rfl

/-- C8: on an initiate response lacking nextTry the code does NOT use a
default wait: `next_try` is None and `asyncio.sleep(None)` raises a
TypeError before any status poll, for every script of status responses. -/
theorem get_data_missing_nextTry_crashes (pid : Option String)
    (script : List ApiEngine.StatusResponse) :
    ApiEngine.get_data ⟨none, pid⟩ script = ([], .typeError) := by
  simp [ApiEngine.get_data, ApiEngine.pollLoop]

/-- C9: a status response that is neither RESOLVED nor FAILED (PENDING, an
unrecognized value, or a missing status field, which reads as the empty
string) keeps `get_data` in the polling loop: the call sleeps, polls, and
then behaves exactly like a run over the remaining script whose wait is the
response's nextTry value, 100 when that field is absent. -/
theorem get_data_nonterminal_continues
    (w : Nat) (pid : Option String) (resp : ApiEngine.StatusResponse)
    (rest : List ApiEngine.StatusResponse)
    (h1 : resp.status.getD "" ≠ "RESOLVED")
    (h2 : resp.status.getD "" ≠ "FAILED") :
    ApiEngine.get_data ⟨some w, pid⟩ (resp :: rest) =
      (.sleep w :: .poll pid ::
        (ApiEngine.get_data ⟨some (resp.nextTry.getD 100), pid⟩ rest).1,
       (ApiEngine.get_data ⟨some (resp.nextTry.getD 100), pid⟩ rest).2) := by
  simp only [ApiEngine.get_data, ApiEngine.pollLoop, if_neg h1, if_neg h2]
  cases hrec : (ApiEngine.pollLoop pid (some (resp.nextTry.getD 100)) rest).2
    <;> simp [hrec]

/-- C9 witness: the non-terminal-step theorem applied to a concrete PENDING
response without a nextTry field, showing the loop continues with the
default wait 100. -/
theorem get_data_nonterminal_witness :
    ApiEngine.get_data ⟨some 1, some "pl-3"⟩ [⟨some "PENDING", none⟩] =
      (.sleep 1 :: .poll (some "pl-3") ::
        (ApiEngine.get_data
          ⟨some ((⟨some "PENDING", none⟩ :
            ApiEngine.StatusResponse).nextTry.getD 100), some "pl-3"⟩ []).1,
       (ApiEngine.get_data
          ⟨some ((⟨some "PENDING", none⟩ :
            ApiEngine.StatusResponse).nextTry.getD 100), some "pl-3"⟩ []).2) :=
  get_data_nonterminal_continues 1 (some "pl-3") ⟨some "PENDING", none⟩ []
    (by decide) (by decide)

/-- The polling loop of `get_data` on a script whose first terminal response
is FAILED: it raises there, after exactly one poll per preceding non-terminal
response plus the failing one, and never looks at the rest of the script. -/
theorem pollLoop_failed (pid : Option String)
    (pre : List ApiEngine.StatusResponse) (fr : ApiEngine.StatusResponse)
    (post : List ApiEngine.StatusResponse)
    (hpre : ∀ r ∈ pre, r.status.getD "" ≠ "RESOLVED"
      ∧ r.status.getD "" ≠ "FAILED")
    (hf : fr.status.getD "" = "FAILED") :
    ∀ w : Nat,
      (ApiEngine.pollLoop pid (some w) (pre ++ fr :: post)).2 = .failed
      ∧ (ApiEngine.pollLoop pid (some w) (pre ++ fr :: post)).1.countP
          ApiEngine.Event.isPoll = pre.length + 1
      ∧ (ApiEngine.pollLoop pid (some w) (pre ++ fr :: post)).1.countP
          ApiEngine.Event.isRetrieve = 0
      ∧ ApiEngine.pollLoop pid (some w) (pre ++ fr :: post) =
          ApiEngine.pollLoop pid (some w) (pre ++ [fr]) := by
  induction pre with
  | nil =>
    intro w
    have hnr : fr.status.getD "" ≠ "RESOLVED" := by rw [hf]; decide
    refine ⟨?_, ?_, ?_, ?_⟩ <;>
      simp [ApiEngine.pollLoop, if_neg hnr, hf, List.countP_cons,
        ApiEngine.Event.isPoll, ApiEngine.Event.isRetrieve]
  | cons r pre' ih =>
    intro w
    have hr := hpre r (by simp)
    have ih' := ih (fun t ht => hpre t (by simp [ht]))
      (r.nextTry.getD 100)
    simp only [List.cons_append, ApiEngine.pollLoop, if_neg hr.1,
      if_neg hr.2, List.append_eq]
    refine ⟨ih'.1, ?_, ?_, ?_⟩
    · simp [List.countP_cons, ApiEngine.Event.isPoll, ih'.2.1]
    · simp [List.countP_cons, ApiEngine.Event.isRetrieve, ih'.2.2.1]
    · rw [ih'.2.2.2]

/-- C5: when the status script reaches a FAILED response after any number of
non-terminal responses, `get_data` terminates at that poll with the
PipelineError naming the pipeline id, having performed exactly one poll per
step up to and including the failing one, no retrieve call, and its whole
behavior is independent of whatever responses would follow. -/
theorem get_data_failed_terminates
    (w : Nat) (pid : String) (pre post : List ApiEngine.StatusResponse)
    (fr : ApiEngine.StatusResponse)
    (hpre : ∀ r ∈ pre, r.status.getD "" ≠ "RESOLVED"
      ∧ r.status.getD "" ≠ "FAILED")
    (hf : fr.status.getD "" = "FAILED") :
    (ApiEngine.get_data ⟨some w, some pid⟩ (pre ++ fr :: post)).2 =
        .pipelineError (some pid)
      ∧ (ApiEngine.get_data ⟨some w, some pid⟩ (pre ++ fr :: post)).1.countP
          ApiEngine.Event.isPoll = pre.length + 1
      ∧ (ApiEngine.get_data ⟨some w, some pid⟩ (pre ++ fr :: post)).1.countP
          ApiEngine.Event.isRetrieve = 0
      ∧ ApiEngine.get_data ⟨some w, some pid⟩ (pre ++ fr :: post) =
          ApiEngine.get_data ⟨some w, some pid⟩ (pre ++ [fr]) := by
  have h := pollLoop_failed (some pid) pre fr post hpre hf w
  have e := h.2.2.2
  have h1 : (ApiEngine.pollLoop (some pid) (some w) (pre ++ [fr])).2 =
      .failed := by rw [← e]; exact h.1
  have h2 : (ApiEngine.pollLoop (some pid) (some w) (pre ++ [fr])).1.countP
      ApiEngine.Event.isPoll = pre.length + 1 := by rw [← e]; exact h.2.1
  have h3 : (ApiEngine.pollLoop (some pid) (some w) (pre ++ [fr])).1.countP
      ApiEngine.Event.isRetrieve = 0 := by rw [← e]; exact h.2.2.1
  refine ⟨?_, ?_, ?_, ?_⟩ <;>
    simp [ApiEngine.get_data, e, h1, h2, h3]

/-- C5 witness: the FAILED-termination theorem applied to the concrete script
PENDING(3), FAILED, PENDING(9). -/
theorem get_data_failed_witness :
    (ApiEngine.get_data ⟨some 4, some "pl-2"⟩
        ([ApiEngine.pending 3] ++ (⟨some "FAILED", none⟩ :
          ApiEngine.StatusResponse) :: [ApiEngine.pending 9])).2 =
        .pipelineError (some "pl-2")
      ∧ (ApiEngine.get_data ⟨some 4, some "pl-2"⟩
          ([ApiEngine.pending 3] ++ (⟨some "FAILED", none⟩ :
            ApiEngine.StatusResponse) :: [ApiEngine.pending 9])).1.countP
          ApiEngine.Event.isPoll = [ApiEngine.pending 3].length + 1
      ∧ (ApiEngine.get_data ⟨some 4, some "pl-2"⟩
          ([ApiEngine.pending 3] ++ (⟨some "FAILED", none⟩ :
            ApiEngine.StatusResponse) :: [ApiEngine.pending 9])).1.countP
          ApiEngine.Event.isRetrieve = 0
      ∧ ApiEngine.get_data ⟨some 4, some "pl-2"⟩
          ([ApiEngine.pending 3] ++ (⟨some "FAILED", none⟩ :
            ApiEngine.StatusResponse) :: [ApiEngine.pending 9]) =
          ApiEngine.get_data ⟨some 4, some "pl-2"⟩
            ([ApiEngine.pending 3] ++ [⟨some "FAILED", none⟩]) :=
  get_data_failed_terminates 4 "pl-2" [ApiEngine.pending 3]
    [ApiEngine.pending 9] ⟨some "FAILED", none⟩ (by decide) (by decide)

/-- C7: `choose_best_scene` on the empty scene list does not raise any
`EmptyInputError` (none exists in the code): the fallback expression
`scenes['results'][0]` faults with a TypeError on the plain list input. -/
theorem choose_best_scene_empty_faults :
    SpaceCar.choose_best_scene [] = .error .typeFault := rfl

/-- Scanning scenes none of which qualifies leaves the loop accumulator
unchanged. -/
theorem bestLoop_no_qualifier (l : List Scene)
    (h : ∀ s ∈ l, qualifies s = false) :
    ∀ best : Option Scene, bestLoop best l = .ok best := by
  induction l with
  | nil => intro best; rfl
  | cons s rest ih =>
    intro best
    have hs := h s (by simp)
    simp only [bestLoop, hs, Bool.false_eq_true, if_false]
    exact ih (fun t ht => h t (by simp [ht])) best

/-- C4: on a non-empty scene list in which no scene qualifies, the fallback
of `SpaceCar.choose_best_scene` is NOT the claimed first input scene: its
expression `scenes['results'][0]` faults with a TypeError on the plain list
it receives.  The `CarVisualizer.choose_best_scene` variant of main.py,
whose input carries the list under `results`, does return the first scene of
the input sequence as the claim states. -/
theorem choose_best_scene_fallback
    (scenes : List Scene) (hne : scenes ≠ [])
    (hnq : ∀ s ∈ scenes, qualifies s = false) :
    SpaceCar.choose_best_scene scenes = .error .typeFault
    ∧ ∀ sr : SearchResult, sr.results = scenes →
        CarVisualizer.choose_best_scene sr =
          .ok (scenes.headD ⟨"", none, [], ""⟩) := by
  constructor
  · simp only [SpaceCar.choose_best_scene, bestLoop_no_qualifier scenes hnq]
    rfl
  · intro sr hsr
    simp only [CarVisualizer.choose_best_scene, hsr,
      bestLoop_no_qualifier scenes hnq]
    cases scenes with
    | nil => exact absurd rfl hne
    | cons s rest => rfl

/-- C4 witness: the fallback theorem applied to a one-scene list whose only
scene has cloud cover 0.9: the SpaceCar variant faults while the
CarVisualizer variant returns that first scene. -/
theorem choose_best_scene_fallback_witness :
    SpaceCar.choose_best_scene
        [⟨"nq", some ((9 : ℚ) / 10), [⟨1⟩], "dn"⟩] = .error .typeFault
    ∧ ∀ sr : SearchResult,
        sr.results = [⟨"nq", some ((9 : ℚ) / 10), [⟨1⟩], "dn"⟩] →
        CarVisualizer.choose_best_scene sr =
          .ok ([(⟨"nq", some ((9 : ℚ) / 10), [⟨1⟩], "dn"⟩ : Scene)].headD
            ⟨"", none, [], ""⟩) :=
  choose_best_scene_fallback [⟨"nq", some ((9 : ℚ) / 10), [⟨1⟩], "dn"⟩]
    (by simp) (by norm_num [qualifies])

/-- `selStep` returns one of its two arguments. -/
theorem selStep_eq_or (b s : Scene) : selStep b s = b ∨ selStep b s = s := by
  unfold selStep; split
  · exact Or.inr rfl
  · exact Or.inl rfl

/-- The kept scene's gsd is at most the current best's. -/
theorem gsdD_selStep_le_left (b s : Scene) : gsdD (selStep b s) ≤ gsdD b := by
  unfold selStep; split
  · exact le_of_lt (by assumption)
  · exact le_refl _

/-- The kept scene's gsd is at most the candidate's. -/
theorem gsdD_selStep_le_right (b s : Scene) : gsdD (selStep b s) ≤ gsdD s := by
  unfold selStep; split
  · exact le_refl _
  · exact le_of_not_lt (by assumption)

/-- With a current best whose bands are nonempty, scanning scenes whose
qualifying members have nonempty bands is the left fold of `selStep` over the
qualifying members. -/
theorem bestLoop_some_eq_foldl (l : List Scene) :
    ∀ b : Scene, b.bands ≠ [] →
    (∀ s ∈ l, qualifies s = true → s.bands ≠ []) →
    bestLoop (some b) l =
      .ok (some (List.foldl selStep b (l.filter qualifies))) := by
  induction l with
  | nil => intro b _ _; rfl
  | cons s rest ih =>
    intro b hb hl
    by_cases hq : qualifies s = true
    · have hsb : s.bands ≠ [] := hl s (by simp) hq
      have hstep : (selStep b s).bands ≠ [] := by
        rcases selStep_eq_or b s with h | h <;> rw [h]
        exacts [hb, hsb]
      have hrest : ∀ t ∈ rest, qualifies t = true → t.bands ≠ [] :=
        fun t ht => hl t (by simp [ht])
      have hred : bestLoop (some b) (s :: rest) =
          bestLoop (some (selStep b s)) rest := by
        simp only [bestLoop, hq, if_true, gsd0_ok s hsb, gsd0_ok b hb,
          selStep]
        split <;> rfl
      rw [hred, ih (selStep b s) hstep hrest,
        List.filter_cons_of_pos hq, List.foldl_cons]
    · have hrest : ∀ t ∈ rest, qualifies t = true → t.bands ≠ [] :=
        fun t ht => hl t (by simp [ht])
      simp only [bestLoop, if_neg hq]
      rw [ih b hb hrest, List.filter_cons_of_neg (by simp [hq])]

/-- Starting from no best scene, the loop yields no scene when nothing
qualifies and otherwise the left fold of `selStep` over the qualifying
members seeded with the first of them. -/
theorem bestLoop_none_eq (l : List Scene) :
    (∀ s ∈ l, qualifies s = true → s.bands ≠ []) →
    bestLoop none l =
      .ok (match l.filter qualifies with
        | [] => none
        | q :: qs => some (List.foldl selStep q qs)) := by
  induction l with
  | nil => intro _; rfl
  | cons s rest ih =>
    intro hl
    have hrest : ∀ t ∈ rest, qualifies t = true → t.bands ≠ [] :=
      fun t ht => hl t (by simp [ht])
    by_cases hq : qualifies s = true
    · have hsb : s.bands ≠ [] := hl s (by simp) hq
      simp only [bestLoop, hq, if_true]
      rw [bestLoop_some_eq_foldl rest s hsb hrest,
        List.filter_cons_of_pos hq]
    · simp only [bestLoop, if_neg hq]
      rw [ih hrest, List.filter_cons_of_neg (by simp [hq])]

/-- The fold of `selStep` picks an element of the seed-plus-list. -/
theorem foldl_selStep_mem (l : List Scene) :
    ∀ b : Scene, List.foldl selStep b l ∈ b :: l := by
  induction l with
  | nil => intro b; simp
  | cons s rest ih =>
    intro b
    have h := ih (selStep b s)
    rw [List.foldl_cons]
    rcases List.mem_cons.mp h with h1 | h1
    · rw [h1]
      rcases selStep_eq_or b s with h2 | h2 <;> rw [h2] <;> simp
    · exact List.mem_cons.mpr (Or.inr (List.mem_cons.mpr (Or.inr h1)))

/-- The fold of `selStep` attains the minimum gsd of the seed-plus-list. -/
theorem foldl_selStep_min (l : List Scene) :
    ∀ b : Scene, ∀ t ∈ b :: l, gsdD (List.foldl selStep b l) ≤ gsdD t := by
  induction l with
  | nil => intro b t ht; simp at ht; simp [ht]
  | cons s rest ih =>
    intro b t ht
    rw [List.foldl_cons]
    rcases List.mem_cons.mp ht with h1 | h1
    · calc gsdD (List.foldl selStep (selStep b s) rest)
          ≤ gsdD (selStep b s) := ih (selStep b s) _ (by simp)
        _ ≤ gsdD b := gsdD_selStep_le_left b s
        _ = gsdD t := by rw [h1]
    · rcases List.mem_cons.mp h1 with h2 | h2
      · calc gsdD (List.foldl selStep (selStep b s) rest)
            ≤ gsdD (selStep b s) := ih (selStep b s) _ (by simp)
          _ ≤ gsdD s := gsdD_selStep_le_right b s
          _ = gsdD t := by rw [h2]
      · exact ih (selStep b s) t (List.mem_cons.mpr (Or.inr h2))

/-- The fold of `selStep` is the first element of the seed-plus-list
attaining the minimum: every element before it has strictly larger gsd. -/
theorem foldl_selStep_first (l : List Scene) :
    ∀ b : Scene, ∃ l1 l2 : List Scene,
      b :: l = l1 ++ List.foldl selStep b l :: l2
      ∧ ∀ t ∈ l1, gsdD (List.foldl selStep b l) < gsdD t := by
  induction l with
  | nil => intro b; exact ⟨[], [], rfl, by simp⟩
  | cons s rest ih =>
    intro b
    by_cases hc : gsdD s < gsdD b
    · have hsel : selStep b s = s := by unfold selStep; rw [if_pos hc]
      rw [List.foldl_cons, hsel]
      rcases ih s with ⟨l1, l2, heq, hlt⟩
      refine ⟨b :: l1, l2, ?_, ?_⟩
      · rw [List.cons_append, ← heq]
      · intro t ht
        rcases List.mem_cons.mp ht with h1 | h1
        · calc gsdD (List.foldl selStep s rest)
              ≤ gsdD s := foldl_selStep_min rest s s (by simp)
            _ < gsdD b := hc
            _ = gsdD t := by rw [h1]
        · exact hlt t h1
    · have hsel : selStep b s = b := by unfold selStep; rw [if_neg hc]
      rw [List.foldl_cons, hsel]
      rcases ih b with ⟨l1, l2, heq, hlt⟩
      cases l1 with
      | nil =>
        have hhead : b = List.foldl selStep b rest := by
          rw [List.nil_append] at heq
          exact (List.cons_eq_cons.mp heq).1
        refine ⟨[], s :: rest, ?_, by simp⟩
        rw [List.nil_append, ← hhead]
      | cons u l1' =>
        have hu1 : u = b := by
          rw [List.cons_append] at heq
          exact ((List.cons_eq_cons.mp heq).1).symm
        have hu2 : rest = l1' ++ List.foldl selStep b rest :: l2 := by
          rw [List.cons_append] at heq
          exact (List.cons_eq_cons.mp heq).2
        refine ⟨b :: s :: l1', l2, ?_, ?_⟩
        · rw [List.cons_append, List.cons_append, ← hu2]
        · intro t ht
          have hrb : gsdD (List.foldl selStep b rest) < gsdD b := by
            have h := hlt u (by simp)
            rw [hu1] at h
            exact h
          rcases List.mem_cons.mp ht with h1 | h1
          · rw [h1]; exact hrb
          · rcases List.mem_cons.mp h1 with h2 | h2
            · rw [h2]
              exact lt_of_lt_of_le hrb (le_of_not_lt hc)
            · exact hlt t (List.mem_cons.mpr (Or.inr h2))

/-- C3: on a scene list with at least one qualifying scene (cloud cover at
most 0.30; an absent cloud cover counts as 1.0 and never qualifies),
`choose_best_scene` returns a qualifying scene of the list whose
`bands[0].gsd` is minimal among all qualifying scenes, and it is the
earliest qualifying scene in input order attaining that minimum (every
qualifying scene before it has strictly larger gsd). -/
theorem choose_best_scene_min_gsd
    (scenes : List Scene) (s0 : Scene) (qs : List Scene)
    (hq : scenes.filter qualifies = s0 :: qs)
    (hb : ∀ s ∈ scenes, qualifies s = true → s.bands ≠ []) :
    ∃ b : Scene, SpaceCar.choose_best_scene scenes = .ok b
      ∧ qualifies b = true ∧ b ∈ scenes
      ∧ (∀ s ∈ scenes, qualifies s = true → gsdD b ≤ gsdD s)
      ∧ (∃ l1 l2 : List Scene, scenes.filter qualifies = l1 ++ b :: l2
          ∧ ∀ t ∈ l1, gsdD b < gsdD t)
      ∧ (∀ s : Scene, s.cloudCover = none → qualifies s = false) := by
  have hmem : List.foldl selStep s0 qs ∈ s0 :: qs := foldl_selStep_mem qs s0
  have hmemf : List.foldl selStep s0 qs ∈ scenes.filter qualifies := by
    rw [hq]; exact hmem
  refine ⟨List.foldl selStep s0 qs, ?_, ?_, ?_, ?_, ?_, ?_⟩
  · have h := bestLoop_none_eq scenes hb
    rw [hq] at h
    simp only [SpaceCar.choose_best_scene, h]
    rfl
  · exact (List.mem_filter.mp hmemf).2
  · exact (List.mem_filter.mp hmemf).1
  · intro s hs hqs
    have hsf : s ∈ scenes.filter qualifies := List.mem_filter.mpr ⟨hs, hqs⟩
    rw [hq] at hsf
    exact foldl_selStep_min qs s0 s hsf
  · rcases foldl_selStep_first qs s0 with ⟨l1, l2, heq, hlt⟩
    exact ⟨l1, l2, by rw [hq]; exact heq, hlt⟩
  · intro s h
    norm_num [qualifies, h]

/-- C3 witness: the selection theorem applied to a concrete list of three
scenes where the non-qualifying first scene is skipped and the two
qualifying scenes tie on gsd, so the earlier one is returned. -/
theorem choose_best_scene_min_gsd_witness :
    ∃ b : Scene, SpaceCar.choose_best_scene
        [⟨"a", some ((1 : ℚ)/2), [⟨1⟩], "da"⟩,
         ⟨"b", some ((1 : ℚ)/10), [⟨(1 : ℚ)/2⟩], "db"⟩,
         ⟨"c", some ((2 : ℚ)/10), [⟨(1 : ℚ)/2⟩], "dc"⟩] = .ok b
      ∧ qualifies b = true
      ∧ b ∈ [⟨"a", some ((1 : ℚ)/2), [⟨1⟩], "da"⟩,
         ⟨"b", some ((1 : ℚ)/10), [⟨(1 : ℚ)/2⟩], "db"⟩,
         ⟨"c", some ((2 : ℚ)/10), [⟨(1 : ℚ)/2⟩], "dc"⟩]
      ∧ (∀ s ∈ [(⟨"a", some ((1 : ℚ)/2), [⟨1⟩], "da"⟩ : Scene),
         ⟨"b", some ((1 : ℚ)/10), [⟨(1 : ℚ)/2⟩], "db"⟩,
         ⟨"c", some ((2 : ℚ)/10), [⟨(1 : ℚ)/2⟩], "dc"⟩],
          qualifies s = true → gsdD b ≤ gsdD s)
      ∧ (∃ l1 l2 : List Scene,
          List.filter qualifies [⟨"a", some ((1 : ℚ)/2), [⟨1⟩], "da"⟩,
            ⟨"b", some ((1 : ℚ)/10), [⟨(1 : ℚ)/2⟩], "db"⟩,
            ⟨"c", some ((2 : ℚ)/10), [⟨(1 : ℚ)/2⟩], "dc"⟩] = l1 ++ b :: l2
          ∧ ∀ t ∈ l1, gsdD b < gsdD t)
      ∧ (∀ s : Scene, s.cloudCover = none → qualifies s = false) :=
  choose_best_scene_min_gsd
    [⟨"a", some ((1 : ℚ)/2), [⟨1⟩], "da"⟩,
     ⟨"b", some ((1 : ℚ)/10), [⟨(1 : ℚ)/2⟩], "db"⟩,
     ⟨"c", some ((2 : ℚ)/10), [⟨(1 : ℚ)/2⟩], "dc"⟩]
    ⟨"b", some ((1 : ℚ)/10), [⟨(1 : ℚ)/2⟩], "db"⟩
    [⟨"c", some ((2 : ℚ)/10), [⟨(1 : ℚ)/2⟩], "dc"⟩]
    (by norm_num [List.filter, qualifies])
    (by intro s hs _; fin_cases hs <;> simp)

/-- C6 counterexample: for the tile (zoom 16, x 100, y 200) the persisted
files are named from `tile[1]` and `tile[2]` of the (zoom, x, y) coordinate,
giving 100-200.png, not the 200-16.png the claim's tileY-tileZ naming
demands. -/
theorem save_scene_images_name_counterexample :
    (SpaceCar.save_scene_images (fun a _ => a) (fun n => List.range n)
        (SpaceCar.get_scene_images (fun _ _ _ => (2 : Nat))
          ⟨"imagery-map", [⟨16, 100, 200⟩]⟩ ⟨"cars-map", [⟨16, 100, 200⟩]⟩)
        ⟨"sc1", none, [], "2019-01-01 10:00:00"⟩).map
        (fun st => st.pngPath) = ["2019-01-01_10:00:00/100-200.png"]
    ∧ ("2019-01-01_10:00:00/100-200.png" : String) ≠
        "2019-01-01_10:00:00/200-16.png" := by
  exact ⟨by decide, by decide⟩

/-- C6 amended: for every scene and every tile (zoom, x, y) of the imagery
map, the persisted outputs in the scene's sanitized-datetime directory are a
merged PNG named from the tile's x and y coordinates, tileX-tileY.png, and a
sidecar tileX-tileY.json whose cars_count is the number of entries in the
detections payload's features list. -/
theorem save_scene_images_outputs {β γ : Type} (merge : β → β → β)
    (parseFeatures : β → List γ) (fetch : String → Tile → String → β)
    (imagery_map cars_map : MapDescriptor) (scene : Scene) :
    SpaceCar.save_scene_images merge parseFeatures
        (SpaceCar.get_scene_images fetch imagery_map cars_map) scene =
      imagery_map.tiles.map (fun t =>
        { pngPath := SpaceCar.sanitizeName scene.datetime ++ "/" ++
            (toString t.x ++ "-" ++ toString t.y) ++ ".png"
          pngContent := merge (fetch imagery_map.mapId t "truecolor.png")
            (fetch cars_map.mapId t "cars.png")
          jsonPath := SpaceCar.sanitizeName scene.datetime ++ "/" ++
            (toString t.x ++ "-" ++ toString t.y) ++ ".json"
          carsCount :=
            (parseFeatures (fetch cars_map.mapId t "detections.geojson")).length }) := by
  simp only [SpaceCar.save_scene_images, SpaceCar.get_scene_images,
    List.map_map]
  rfl

/-- C10: `get_scene_images` yields exactly one image component per tile of
the imagery map's tile list, in that list's order (the i-th component is
built from the i-th imagery tile), and the cars map's own tile list is never
consulted: replacing it by any other list leaves the result unchanged, so no
agreement between the two maps' tile lists is checked. -/
theorem get_scene_images_per_tile {β : Type}
    (fetch : String → Tile → String → β) (imagery_map cars_map : MapDescriptor) :
    (SpaceCar.get_scene_images fetch imagery_map cars_map).length =
        imagery_map.tiles.length
    ∧ (∀ i : Nat, (SpaceCar.get_scene_images fetch imagery_map cars_map)[i]? =
        (imagery_map.tiles[i]?).map (fun t =>
          { background := fetch imagery_map.mapId t "truecolor.png"
            foreground := fetch cars_map.mapId t "cars.png"
            detections := fetch cars_map.mapId t "detections.geojson"
            name := toString t.x ++ "-" ++ toString t.y }))
    ∧ (∀ tiles2 : List Tile,
        SpaceCar.get_scene_images fetch imagery_map ⟨cars_map.mapId, tiles2⟩ =
          SpaceCar.get_scene_images fetch imagery_map cars_map) := by
  refine ⟨by simp [SpaceCar.get_scene_images], ?_, ?_⟩
  · intro i
    simp [SpaceCar.get_scene_images, List.getElem?_map]
  · intro tiles2
    rfl
